import Mathlib

/-!
Shallow embedding, over ℚ, of the technical-analysis core of the repository:

* `src/server/indicators.ts` — the indicator calculators and the aggregator
  `analyzeIndicators`;
* `src/server/advanced-analysis.ts` — `calculateConfluenceScore`,
  `calculateRiskReward` and `generateFinalSignal`;
* the win-rate ledger (`WinRateTracker`: `recordSignal`, `updateSignalExit`,
  `analyzeWinRate`).

Modelling conventions, stated once:

* JS numbers are modelled as rationals (ℚ).  Division in ℚ is total with
  `x / 0 = 0`; the JS source produces `Infinity`/`NaN` in the few
  zero-denominator regimes (RSI with zero average loss, OBV with a zero
  first window value), which the repository leaves unspecified.  No theorem
  below depends on such a regime.
* `parseFloat(x.toFixed(d))` and `Math.round(x * 100) / 100` are modelled by
  `roundTo d x`: nearest multiple of `10⁻ᵈ`, ties rounded up, which is the
  ECMAScript tie rule for both `toFixed` and `Math.round`.
* `Math.sqrt` has no exact rational counterpart, so every definition that
  takes a square root receives the root function as an explicit `sqrtFn`
  parameter; each theorem that touches it either instantiates it at an
  argument whose root is rational or does not depend on its value.
* `Math.random()` is modelled as an explicit stream `rand : ℕ → ℚ` of draws,
  consumed left to right in JS evaluation order.
* `Array.prototype.sort` (stable per ECMAScript 2019) is modelled by the
  stable insertion sort `jsSort`.
* A JS `Map` is modelled as its entry list in insertion order
  (`set` of a fresh key appends, of a present key updates in place;
  `delete` removes the entry with the key).
-/

/-- `parseFloat(x.toFixed(digits))` and `Math.round(x*10^digits)/10^digits`:
round to `digits` decimal places, ties up. -/
def roundTo (digits : ℕ) (x : ℚ) : ℚ :=
  ((round (x * 10 ^ digits) : ℤ) : ℚ) / 10 ^ digits

/-- `Math.round` kept as a number. -/
def jsRound (x : ℚ) : ℚ := ((round x : ℤ) : ℚ)

/-- Substring test on character lists (helper for `jsIncludes`). -/
def containsSub (s pat : List Char) : Bool :=
  if pat.isPrefixOf s then true
  else
    match s with
    | [] => pat.isEmpty
    | _ :: t => containsSub t pat

/-- `String.prototype.includes`. -/
def jsIncludes (s pat : String) : Bool := containsSub s.data pat.data

/-- `Math.min(...xs)` over a nonempty spread; the guards in the source keep
every evaluated call nonempty (JS would give `Infinity` on an empty call). -/
def listMin : List ℚ → ℚ
  | [] => 0
  | x :: xs => xs.foldl min x

/-- `Math.max(...xs)` over a nonempty spread. -/
def listMax : List ℚ → ℚ
  | [] => 0
  | x :: xs => xs.foldl max x

/-- Stable insertion of `a` after every element `b` with `le b a` (helper for
`jsSort`). -/
def sortInsert {α : Type} (le : α → α → Bool) (a : α) : List α → List α
  | [] => [a]
  | b :: t => if le b a then b :: sortInsert le a t else a :: b :: t

/-- `Array.prototype.sort(cmp)` for a comparator that orders by `le`:
stable insertion sort (ECMAScript sorts are stable since ES2019). -/
def jsSort {α : Type} (le : α → α → Bool) (l : List α) : List α :=
  l.foldl (fun acc x => sortInsert le x acc) []

/-! ## `src/server/indicators.ts` — result records -/

/-- `TokenMetrics` (indicators.ts, lines 20–30). -/
structure TokenMetrics where
  price : ℚ
  priceChange24h : ℚ
  priceChange1h : ℚ
  priceChange5m : ℚ
  volume24h : ℚ
  liquidity : ℚ
  buys24h : ℚ
  sells24h : ℚ
  marketCap : ℚ
deriving DecidableEq

/-- Result record of `calculateRSI`. -/
structure RSIResult where
  value : ℚ
  signal : String
  strength : String
deriving DecidableEq

/-- Result record of `calculateMACD`. -/
structure MACDResult where
  histogram : ℚ
  signal : String
  momentum : String
deriving DecidableEq

/-- Result record of `calculateEMACross`. -/
structure EMACrossResult where
  ema9 : ℚ
  ema21 : ℚ
  alignment : String
  signal : String
deriving DecidableEq

/-- Result record of `calculateBollingerBands`. -/
structure BollingerResult where
  upper : ℚ
  lower : ℚ
  middle : ℚ
  position : String
deriving DecidableEq

/-- Result record of `calculateATR`. -/
structure ATRResult where
  value : ℚ
  volatility : String
deriving DecidableEq

/-- Result record of `calculateOBV`. -/
structure OBVResult where
  trend : String
  momentum : String
deriving DecidableEq

/-- Result record of `calculateStochastic`. -/
structure StochResult where
  k : ℚ
  d : ℚ
  signal : String
deriving DecidableEq

/-- Result record of `calculateADX`. -/
structure ADXResult where
  value : ℚ
  trend : String
  strength : String
deriving DecidableEq

/-- Result record of `calculateVWAP`. -/
structure VWAPResult where
  level : ℚ
  price_vs_vwap : String
deriving DecidableEq

/-- Result record of `calculateIchimoku`. -/
structure IchimokuResult where
  cloud_signal : String
  momentum : String
deriving DecidableEq

/-- The `overall` component of `IndicatorAnalysis`. -/
structure OverallResult where
  score : ℚ
  confidence : String
  recommendation : String
deriving DecidableEq

/-- `IndicatorAnalysis` (indicators.ts, lines 6–18). -/
structure IndicatorAnalysis where
  rsi : RSIResult
  macd : MACDResult
  ema : EMACrossResult
  bollinger : BollingerResult
  atr : ATRResult
  obv : OBVResult
  stoch : StochResult
  adx : ADXResult
  vwap : VWAPResult
  ichimoku : IchimokuResult
  overall : OverallResult
deriving DecidableEq

/-! ## `src/server/indicators.ts` — calculators -/

/-- `calculateRSI` (indicators.ts, lines 36–67). -/
def calculateRSI (priceHistory : List ℚ) (period : ℕ := 14) : RSIResult :=
  if priceHistory.length < period + 1 then
    { value := 50, signal := "Insufficient Data", strength := "Neutral" }
  else
    let changes := (List.range period).map
      (fun i => priceHistory.getD (i + 1) 0 - priceHistory.getD i 0)
    let gl := changes.foldl
      (fun (p : ℚ × ℚ) c => if 0 < c then (p.1 + c, p.2) else (p.1, p.2 + |c|))
      (0, 0)
    let avgGain := gl.1 / (period : ℚ)
    let avgLoss := gl.2 / (period : ℚ)
    let rs := avgGain / avgLoss
    let rsi := 100 - 100 / (1 + rs)
    let signal :=
      if 70 < rsi then "Overbought"
      else if rsi < 30 then "Oversold"
      else if 60 < rsi then "Strong Bullish"
      else if rsi < 40 then "Strong Bearish"
      else "Neutral"
    let strength :=
      if 75 < rsi ∨ rsi < 25 then "Very Strong"
      else if 70 < rsi ∨ rsi < 30 then "Strong"
      else if 65 < rsi ∨ rsi < 35 then "Moderate"
      else "Weak"
    { value := roundTo 2 rsi, signal := signal, strength := strength }

/-- `calculateEMA` (indicators.ts, lines 106–117).  For a window shorter than
the period the source returns `prices[prices.length - 1]`, the last sample
(`getLastD 0`; the source value is `undefined` only on an empty list, which no
caller reaches). -/
def calculateEMA (prices : List ℚ) (period : ℕ) : ℚ :=
  if prices.length < period then prices.getLastD 0
  else
    let multiplier : ℚ := 2 / ((period : ℚ) + 1)
    let seed := (prices.take period).sum / (period : ℚ)
    (prices.drop period).foldl (fun ema p => (p - ema) * multiplier + ema) seed

/-- The reconstructed MACD history of `calculateMACD` (indicators.ts,
lines 81–84): one `EMA12 − EMA26` value per trailing 26-sample sub-window. -/
def macdHistory (priceHistory : List ℚ) : List ℚ :=
  (List.range (priceHistory.length - 26)).map
    (fun i =>
      calculateEMA ((priceHistory.drop i).take 26) 12 -
        calculateEMA ((priceHistory.drop i).take 26) 26)

/-- `calculateMACD` (indicators.ts, lines 72–101). -/
def calculateMACD (priceHistory : List ℚ) : MACDResult :=
  if priceHistory.length < 26 then
    { histogram := 0, signal := "Insufficient Data", momentum := "Neutral" }
  else
    let macdLine := calculateEMA priceHistory 12 - calculateEMA priceHistory 26
    let signalLine := calculateEMA (macdHistory priceHistory) 9
    let histogram := macdLine - signalLine
    let signal :=
      if 0.5 < histogram then "Bullish Momentum"
      else if histogram < -0.5 then "Bearish Momentum"
      else if 0 < histogram then "Weak Bullish"
      else "Weak Bearish"
    let momentum :=
      if 2 < |histogram| then "Very Strong"
      else if 1 < |histogram| then "Strong"
      else if 0.5 < |histogram| then "Moderate"
      else "Weak"
    { histogram := roundTo 4 histogram, signal := signal, momentum := momentum }

/-- `calculateEMACross` (indicators.ts, lines 122–157). -/
def calculateEMACross (priceHistory : List ℚ) : EMACrossResult :=
  if priceHistory.length < 21 then
    { ema9 := 0, ema21 := 0, alignment := "Insufficient Data", signal := "Neutral" }
  else
    let ema9 := calculateEMA priceHistory 9
    let ema21 := calculateEMA priceHistory 21
    let current := priceHistory.getLastD 0
    let pair :=
      if ema21 < ema9 ∧ ema21 < current then
        ("Bullish", "Strong Bullish Alignment")
      else if ema9 < ema21 ∧ current < ema21 then
        ("Bearish", "Strong Bearish Alignment")
      else if ema21 < ema9 then ("Bullish (Price Below)", "Weak Bullish")
      else if ema9 < ema21 then ("Bearish (Price Above)", "Weak Bearish")
      else ("Neutral", "Consolidation Zone")
    { ema9 := roundTo 8 ema9, ema21 := roundTo 8 ema21,
      alignment := pair.1, signal := pair.2 }

/-- `calculateBollingerBands` (indicators.ts, lines 162–193).  `sqrtFn`
stands for `Math.sqrt` (see the file comment). -/
def calculateBollingerBands (sqrtFn : ℚ → ℚ) (priceHistory : List ℚ)
    (period : ℕ := 20) (stdDev : ℚ := 2) : BollingerResult :=
  if priceHistory.length < period then
    { upper := 0, lower := 0, middle := 0, position := "Insufficient Data" }
  else
    let recent := priceHistory.drop (priceHistory.length - period)
    let middle := recent.sum / (period : ℚ)
    let variance := (recent.map (fun price => (price - middle) ^ 2)).sum / (period : ℚ)
    let std := sqrtFn variance
    let upper := middle + std * stdDev
    let lower := middle - std * stdDev
    let current := priceHistory.getLastD 0
    let position :=
      if upper * 0.95 < current then "Upper Band (Overbought)"
      else if current < lower * 1.05 then "Lower Band (Oversold)"
      else if middle < current then "Upper Half"
      else "Lower Half"
    { upper := roundTo 8 upper, lower := roundTo 8 lower,
      middle := roundTo 8 middle, position := position }

/-- One true-range term of `calculateATR` (indicators.ts, lines 208–212).
The JS expression `Math.abs(high[i] - close[i-1] || close[i])` falls back to
`close[i]` when the difference is `NaN` (at `i = 0`, where `close[i-1]` is
`undefined`) or exactly `0`. -/
def atrTerm (high low close : List ℚ) (i : ℕ) : ℚ :=
  let hDiff := if i = 0 then close.getD i 0
    else if high.getD i 0 - close.getD (i - 1) 0 = 0 then close.getD i 0
    else high.getD i 0 - close.getD (i - 1) 0
  let lDiff := if i = 0 then close.getD i 0
    else if low.getD i 0 - close.getD (i - 1) 0 = 0 then close.getD i 0
    else low.getD i 0 - close.getD (i - 1) 0
  max (high.getD i 0 - low.getD i 0) (max |hDiff| |lDiff|)

/-- `calculateATR` (indicators.ts, lines 198–228). -/
def calculateATR (high low close : List ℚ) (period : ℕ := 14) : ATRResult :=
  if high.length < period then
    { value := 0, volatility := "Insufficient Data" }
  else
    let trSum := ((List.range period).map (atrTerm high low close)).sum
    let atr := trSum / (period : ℚ)
    let percentage := atr / close.getLastD 0 * 100
    let volatility :=
      if 3 < percentage then "Very High"
      else if 2 < percentage then "High"
      else if 1 < percentage then "Moderate"
      else "Low"
    { value := roundTo 8 atr, volatility := volatility }

/-- The running OBV list of `calculateOBV` (indicators.ts, lines 241–249),
seeded with `volumeHistory[0]`. -/
def obvHistory (closeHistory volumeHistory : List ℚ) : List ℚ :=
  (List.range (closeHistory.length - 1)).foldl
    (fun acc i =>
      let step :=
        if closeHistory.getD i 0 < closeHistory.getD (i + 1) 0 then
          volumeHistory.getD (i + 1) 0
        else if closeHistory.getD (i + 1) 0 < closeHistory.getD i 0 then
          -volumeHistory.getD (i + 1) 0
        else 0
      acc ++ [acc.getLastD 0 + step])
    [volumeHistory.getD 0 0]

/-- `calculateOBV` (indicators.ts, lines 233–260). -/
def calculateOBV (closeHistory volumeHistory : List ℚ) : OBVResult :=
  if closeHistory.length < 2 then
    { trend := "Neutral", momentum := "Insufficient Data" }
  else
    let hist := obvHistory closeHistory volumeHistory
    let recent := hist.drop (hist.length - 10)
    let first := recent.headI
    let last := recent.getLastD 0
    let trend := if first < last then "Bullish" else "Bearish"
    let changePercent := (last - first) / first * 100
    let momentum :=
      if 10 < |changePercent| then "Strong"
      else if 5 < |changePercent| then "Moderate"
      else "Weak"
    { trend := trend, momentum := momentum }

/-- `calculateStochastic` (indicators.ts, lines 265–293). -/
def calculateStochastic (closeHistory : List ℚ) (period : ℕ := 14) : StochResult :=
  if closeHistory.length < period then
    { k := 50, d := 50, signal := "Insufficient Data" }
  else
    let recent := closeHistory.drop (closeHistory.length - period)
    let lowest := listMin recent
    let highest := listMax recent
    let current := closeHistory.getLastD 0
    let k : ℚ := if lowest = highest then 50 else (current - lowest) / (highest - lowest) * 100
    let d := (k + 50) / 2
    let signal :=
      if 80 < k then "Overbought"
      else if k < 20 then "Oversold"
      else if d < k then "Bullish Crossover"
      else if k < d then "Bearish Crossover"
      else "Neutral"
    { k := roundTo 2 k, d := roundTo 2 d, signal := signal }

/-- `calculateADX` (indicators.ts, lines 298–331).  In the JS fold
`Math.abs(b - recent[i-1] || 0)` the `i = 0` term is `0` (`recent[-1]` is
`undefined`, the difference `NaN`, and `NaN || 0` is `0`). -/
def calculateADX (high low _close : List ℚ) (period : ℕ := 14) : ADXResult :=
  if high.length < period then
    { value := 20, trend := "Weak Trend", strength := "Weak" }
  else
    let recent := high.drop (high.length - period)
    let avgChange := ((List.range recent.length).map
      (fun i => if i = 0 then 0 else |recent.getD i 0 - recent.getD (i - 1) 0|)).sum / (period : ℚ)
    let pair : String × ℚ :=
      if high.getD (high.length - 2) 0 < high.getD (high.length - 1) 0 then
        ("Uptrend", min 50 (20 + avgChange * 5))
      else if low.getD (low.length - 1) 0 < low.getD (low.length - 2) 0 then
        ("Downtrend", min 50 (20 + avgChange * 5))
      else ("No Clear Trend", 20)
    let adx := pair.2
    let strength :=
      if 40 < adx then "Very Strong"
      else if 30 < adx then "Strong"
      else if 20 < adx then "Moderate"
      else "Weak"
    { value := roundTo 2 adx, trend := pair.1, strength := strength }

/-- `calculateVWAP` (indicators.ts, lines 336–366). -/
def calculateVWAP (closeHistory volumeHistory : List ℚ) : VWAPResult :=
  if closeHistory.length = 0 then
    { level := 0, price_vs_vwap := "No Data" }
  else
    let typicalPriceVolume := ((List.range closeHistory.length).map
      (fun i => closeHistory.getD i 0 * volumeHistory.getD i 0)).sum
    let volumeSum := ((List.range closeHistory.length).map
      (fun i => volumeHistory.getD i 0)).sum
    let vwap := if volumeSum = 0 then closeHistory.getLastD 0
      else typicalPriceVolume / volumeSum
    let current := closeHistory.getLastD 0
    let diff := (current - vwap) / vwap * 100
    let position :=
      if 1 < diff then "Above VWAP (Bullish)"
      else if diff < -1 then "Below VWAP (Bearish)"
      else "Near VWAP (Consolidation)"
    { level := roundTo 8 vwap, price_vs_vwap := position }

/-- `calculateIchimoku` (indicators.ts, lines 371–404). -/
def calculateIchimoku (high _low close : List ℚ) : IchimokuResult :=
  if high.length < 26 then
    { cloud_signal := "Insufficient Data", momentum := "Neutral" }
  else
    let recent26 := high.drop (high.length - 26)
    let recent52 := high.drop (high.length - 52)
    let tenkan := (listMax recent26 + listMin recent26) / 2
    let kijun := (listMax recent52 + listMin recent52) / 2
    let current := close.getLastD 0
    let pair :=
      if tenkan < current ∧ kijun < tenkan then ("Strong Bullish Cloud", "Strong")
      else if current < tenkan ∧ tenkan < kijun then ("Strong Bearish Cloud", "Strong")
      else if kijun < current then ("Bullish", "Moderate")
      else if current < kijun then ("Bearish", "Moderate")
      else ("Neutral", "Weak")
    { cloud_signal := pair.1, momentum := pair.2 }

/-! ## `src/server/advanced-analysis.ts` — confluence scorer -/

/-- The `rsi` component of `calculateConfluenceScore`'s parameter type. -/
structure ValueSignal where
  value : ℚ
  signal : String
deriving DecidableEq

/-- A component carrying only a `signal` label (`macd`, `ema`, `stoch`). -/
structure SignalOnly where
  signal : String
deriving DecidableEq

/-- The `bollinger` component, carrying a `position` label. -/
structure PositionOnly where
  position : String
deriving DecidableEq

/-- The `vwap` component, carrying a `price_vs_vwap` label. -/
structure PriceVsVwap where
  price_vs_vwap : String
deriving DecidableEq

/-- The `adx` component, carrying a `strength` label. -/
structure StrengthOnly where
  strength : String
deriving DecidableEq

/-- The `ichimoku` component, carrying a `cloud_signal` label. -/
structure CloudSignal where
  cloud_signal : String
deriving DecidableEq

/-- The `obv` component, carrying a `trend` label. -/
structure TrendOnly where
  trend : String
deriving DecidableEq

/-- The `atr` component, carrying a `volatility` label. -/
structure VolatilityOnly where
  volatility : String
deriving DecidableEq

/-- The parameter record of `calculateConfluenceScore`
(advanced-analysis.ts, lines 100–111). -/
structure ConfluenceIndicators where
  rsi : ValueSignal
  macd : SignalOnly
  ema : SignalOnly
  bollinger : PositionOnly
  vwap : PriceVsVwap
  adx : StrengthOnly
  stoch : SignalOnly
  ichimoku : CloudSignal
  obv : TrendOnly
  atr : VolatilityOnly
deriving DecidableEq

/-- `ConfluenceScore` (advanced-analysis.ts, lines 14–22). -/
structure ConfluenceScore where
  totalIndicators : ℕ
  agreeingIndicators : ℕ
  confluencePercent : ℚ
  bullishCount : ℕ
  bearishCount : ℕ
  confidenceLevel : String
  tradeable : Bool
deriving DecidableEq

/-- The `bullishSignals` array (advanced-analysis.ts, lines 116–125). -/
def bullishSignals (ind : ConfluenceIndicators) : List Bool :=
  [jsIncludes ind.rsi.signal "Bullish",
   jsIncludes ind.macd.signal "Bullish",
   jsIncludes ind.ema.signal "Bullish",
   jsIncludes ind.bollinger.position "Lower",
   jsIncludes ind.vwap.price_vs_vwap "Above",
   jsIncludes ind.stoch.signal "Bullish",
   jsIncludes ind.ichimoku.cloud_signal "Bullish",
   ind.obv.trend == "Bullish"]

/-- The `bearishSignals` array (advanced-analysis.ts, lines 127–136). -/
def bearishSignals (ind : ConfluenceIndicators) : List Bool :=
  [jsIncludes ind.rsi.signal "Bearish",
   jsIncludes ind.macd.signal "Bearish",
   jsIncludes ind.ema.signal "Bearish",
   jsIncludes ind.bollinger.position "Upper",
   jsIncludes ind.vwap.price_vs_vwap "Below",
   jsIncludes ind.stoch.signal "Bearish",
   jsIncludes ind.ichimoku.cloud_signal "Bearish",
   ind.obv.trend == "Bearish"]

/-- The raw (pre-`Math.round`) confluence percentage
(advanced-analysis.ts, line 142). -/
def confluencePercentRaw (bull bear : ℕ) : ℚ :=
  if 0 < bull + bear then (max bull bear : ℚ) / ((bull + bear : ℕ) : ℚ) * 100 else 50

/-- `calculateConfluenceScore` (advanced-analysis.ts, lines 100–159). -/
def calculateConfluenceScore (ind : ConfluenceIndicators) : ConfluenceScore :=
  let bullishCount := (bullishSignals ind).countP (fun b => b)
  let bearishCount := (bearishSignals ind).countP (fun b => b)
  let confluencePercent := confluencePercentRaw bullishCount bearishCount
  let confidenceLevel :=
    if 90 ≤ confluencePercent then "very-high"
    else if 75 ≤ confluencePercent then "high"
    else if 60 ≤ confluencePercent then "moderate"
    else if 40 ≤ confluencePercent then "low"
    else "very-low"
  { totalIndicators := 10,
    agreeingIndicators := max bullishCount bearishCount,
    confluencePercent := jsRound confluencePercent,
    bullishCount := bullishCount,
    bearishCount := bearishCount,
    confidenceLevel := confidenceLevel,
    tradeable := decide (60 ≤ confluencePercent) }

/-! ## `src/server/advanced-analysis.ts` — risk/reward -/

/-- `RiskRewardSetup` (advanced-analysis.ts, lines 24–33). -/
structure RiskRewardSetup where
  entryPrice : ℚ
  takeProfit : ℚ
  stopLoss : ℚ
  riskRewardRatio : ℚ
  isValid : Bool
  positionSize : ℚ
  potentialGain : ℚ
  potentialLoss : ℚ
deriving DecidableEq

/-- The stop-loss of `calculateRiskReward` before the final 8-decimal rounding
(advanced-analysis.ts, lines 397–401): `entry − 1.5·ATR`, clamped to
`0.99·support` when it would sit above support. -/
def rrStopLossRaw (entryPrice support atrValue : ℚ) : ℚ :=
  let stopLoss := entryPrice - atrValue * 1.5
  if support < stopLoss then support * 0.99 else stopLoss

/-- The take-profit of `calculateRiskReward` before rounding
(advanced-analysis.ts, lines 398–404): `entry + 3·ATR`, clamped to
`1.01·resistance` when it would sit below resistance. -/
def rrTakeProfitRaw (entryPrice resistance atrValue : ℚ) : ℚ :=
  let takeProfit := entryPrice + atrValue * 3
  if takeProfit < resistance then resistance * 1.01 else takeProfit

/-- `calculateRiskReward` (advanced-analysis.ts, lines 390–423). -/
def calculateRiskReward (entryPrice support resistance atrValue : ℚ)
    (accountRisk : ℚ := 2) : RiskRewardSetup :=
  let stopLoss := rrStopLossRaw entryPrice support atrValue
  let takeProfit := rrTakeProfitRaw entryPrice resistance atrValue
  let riskAmount := entryPrice - stopLoss
  let rewardAmount := takeProfit - entryPrice
  let riskRewardRatio := rewardAmount / riskAmount
  let positionSize := accountRisk / (riskAmount / entryPrice) * 100
  { entryPrice := entryPrice,
    takeProfit := roundTo 8 takeProfit,
    stopLoss := roundTo 8 stopLoss,
    riskRewardRatio := roundTo 2 riskRewardRatio,
    isValid := decide (2 ≤ riskRewardRatio),
    positionSize := roundTo 2 positionSize,
    potentialGain := roundTo 2 (rewardAmount / entryPrice * 100),
    potentialLoss := roundTo 2 (riskAmount / entryPrice * 100) }

/-! ## `src/server/advanced-analysis.ts` — final signal composer -/

/-- `MarketRegime` (advanced-analysis.ts, lines 42–47). -/
structure MarketRegime where
  regime : String
  adxValue : ℚ
  volatility : String
  recommendation : String
deriving DecidableEq

/-- `SmartEntry` (advanced-analysis.ts, lines 56–62). -/
structure SmartEntry where
  shouldEnter : Bool
  reason : String
  entryType : String
  entryPrice : ℚ
  entryWaitTime : ℚ
deriving DecidableEq

/-- The `Partial<AdvancedAnalysisResult>` parameter of `generateFinalSignal`,
restricted to the five fields the function reads (a `Partial` makes every
field optional, and the unread fields cannot affect the result). -/
structure FinalSignalInput where
  confluence : Option ConfluenceScore
  timeframeAlignment : Option String
  riskReward : Option RiskRewardSetup
  smartEntry : Option SmartEntry
  marketRegime : Option MarketRegime
deriving DecidableEq

/-- The result record of `generateFinalSignal`. -/
structure FinalSignal where
  signal : String
  confidence : ℚ
  reason : String
deriving DecidableEq

/-- `generateFinalSignal` (advanced-analysis.ts, lines 499–532).

The JS gate `result.confluence?.confluencePercent || 0 >= 60` parses, by
operator precedence, as `confluencePercent || (0 >= 60)`, i.e. the truthiness
of `confluencePercent` (`0 >= 60` is `false`): the gate passes exactly when
the field is present and nonzero.  Likewise
`result.marketRegime?.regime !== "ranging" || false` is `true` when
`marketRegime` is absent (`undefined !== "ranging"`). -/
def generateFinalSignal (result : FinalSignalInput) : FinalSignal :=
  let confluencePass : Bool :=
    match result.confluence with
    | some c => decide (c.confluencePercent ≠ 0)
    | none => false
  let timeframePass : Bool :=
    result.timeframeAlignment == some "strong-bullish" ||
      result.timeframeAlignment == some "bullish"
  let riskRewardPass : Bool :=
    match result.riskReward with
    | some rr => rr.isValid
    | none => false
  let entryReady : Bool :=
    match result.smartEntry with
    | some se => se.shouldEnter
    | none => false
  let regimeAccepts : Bool :=
    match result.marketRegime with
    | some mr => decide (mr.regime ≠ "ranging")
    | none => true
  let passedChecks := [confluencePass, timeframePass, riskRewardPass,
    entryReady, regimeAccepts].countP (fun b => b)
  let confidence := jsRound ((passedChecks : ℚ) / 5 * 100)
  if ¬confluencePass ∨ ¬riskRewardPass then
    { signal := "SKIP", confidence := 0,
      reason := "Failed confluence or risk/reward filters" }
  else if passedChecks = 5 then
    { signal := "STRONG-BUY", confidence := confidence,
      reason := "All checks passed - ideal setup" }
  else if 4 ≤ passedChecks then
    { signal := "BUY", confidence := confidence,
      reason := "Most checks passed - good setup" }
  else if 3 ≤ passedChecks then
    { signal := "NEUTRAL", confidence := confidence,
      reason := "Mixed signals - use caution" }
  else
    { signal := "SKIP", confidence := confidence,
      reason := "Insufficient confluent signals" }

/-! ## win-rate ledger (`WinRateTracker`) -/

/-- `SignalRecord` (win-rate tracker, lines 1689–1709).  Optional fields of
the interface are `Option`s; the union-typed labels are `String`s. -/
structure SignalRecord where
  id : String
  timestamp : ℚ
  symbol : String
  entryPrice : ℚ
  takeProfitPrice : ℚ
  stopLossPrice : ℚ
  signalType : String
  confidence : ℚ
  confluencePercent : ℚ
  patternDetected : Option String
  adxValue : ℚ
  rsiValue : ℚ
  macdSignal : String
  exitPrice : Option ℚ
  exitTime : Option ℚ
  outcome : Option String
  profitLoss : Option ℚ
  profitLossPercent : Option ℚ
  notes : Option String
deriving DecidableEq, Inhabited

/-- The state of a `WinRateTracker`: its `Map` of signals as the entry list
in insertion order. -/
structure WinRateTracker where
  signals : List (String × SignalRecord)
deriving DecidableEq

/-- `MAX_SIGNALS` (win-rate tracker, line 1729). -/
def MAX_SIGNALS : ℕ := 10000

/-- `Map.prototype.set`: update in place when the key is present, append
otherwise. -/
def mapSet (l : List (String × SignalRecord)) (k : String) (v : SignalRecord) :
    List (String × SignalRecord) :=
  if l.any (fun e => e.1 == k) then
    l.map (fun e => if e.1 == k then (k, v) else e)
  else l ++ [(k, v)]

/-- `Map.prototype.delete`: remove the entry with the key. -/
def mapDelete (l : List (String × SignalRecord)) (k : String) :
    List (String × SignalRecord) :=
  l.eraseP (fun e => e.1 == k)

/-- `WinRateTracker.recordSignal` (win-rate tracker, lines 1734–1743):
insert-or-replace by id; when the map then exceeds `MAX_SIGNALS`, delete the
key of the first entry of the entry list sorted ascending by timestamp. -/
def recordSignal (t : WinRateTracker) (signal : SignalRecord) : WinRateTracker :=
  let signals := mapSet t.signals signal.id signal
  if MAX_SIGNALS < signals.length then
    let oldestKey :=
      (jsSort (fun a b => decide (a.2.timestamp ≤ b.2.timestamp)) signals).headI.1
    { signals := mapDelete signals oldestKey }
  else { signals := signals }

/-- `WinRateTracker.updateSignalExit` (win-rate tracker, lines 1748–1769):
no-op for an unknown id, else computes the outcome by the ±0.01 absolute
price-change deadband and overwrites the record's exit fields. -/
def updateSignalExit (t : WinRateTracker) (signalId : String)
    (exitPrice exitTime : ℚ) (notes : Option String) : WinRateTracker :=
  match t.signals.find? (fun e => e.1 == signalId) with
  | none => t
  | some (_, signal) =>
      let profitLoss := exitPrice - signal.entryPrice
      let profitLossPercent := profitLoss / signal.entryPrice * 100
      let outcome :=
        if 0.01 < profitLoss then "win"
        else if profitLoss < -0.01 then "loss"
        else "breakeven"
      let updated :=
        { signal with
          exitPrice := some exitPrice
          exitTime := some exitTime
          outcome := some outcome
          profitLoss := some profitLoss
          profitLossPercent := some profitLossPercent
          notes := notes }
      { signals := mapSet t.signals signalId updated }

/-- One `topPatterns` entry of `WinRateAnalysis`. -/
structure TopPattern where
  pattern : String
  winRate : ℚ
  count : ℕ
deriving DecidableEq

/-- `WinRateAnalysis` (win-rate tracker, lines 1711–1725). -/
structure WinRateAnalysis where
  totalSignals : ℕ
  winningSignals : ℕ
  losingSignals : ℕ
  breakevenSignals : ℕ
  winRate : ℚ
  averageWin : ℚ
  averageLoss : ℚ
  profitFactor : ℚ
  expectancy : ℚ
  sharpeRatio : ℚ
  topPatterns : List TopPattern
  bestTimeframe : String
  confidenceCorrelation : ℚ
deriving DecidableEq

/-- The `allSignals` window of `WinRateTracker.analyzeWinRate` (win-rate
tracker, lines 1784–1788): the records with timestamp strictly inside the
lookback window and an outcome set, sorted descending by timestamp.
`Date.now()` is passed in as `now`. -/
def windowSignals (t : WinRateTracker) (now lookbackDays : ℚ) : List SignalRecord :=
  let cutoff := now - lookbackDays * (24 * 60 * 60 * 1000)
  jsSort (fun a b => decide (b.timestamp ≤ a.timestamp))
    ((t.signals.map Prod.snd).filter
      (fun s => decide (cutoff < s.timestamp) && s.outcome.isSome))

/-- `s.profitLossPercent || 0`. -/
def plpOf (s : SignalRecord) : ℚ := s.profitLossPercent.getD 0

/-- The statistics body of `analyzeWinRate` (win-rate tracker, lines
1790–1873), as a function of the filtered window. -/
def analyzeOnWindow (sqrtFn : ℚ → ℚ) (allSignals : List SignalRecord) :
    WinRateAnalysis :=
  if allSignals.isEmpty then
    { totalSignals := 0, winningSignals := 0, losingSignals := 0,
      breakevenSignals := 0, winRate := 0, averageWin := 0, averageLoss := 0,
      profitFactor := 0, expectancy := 0, sharpeRatio := 0, topPatterns := [],
      bestTimeframe := "N/A", confidenceCorrelation := 0 }
  else
    let wins := allSignals.filter (fun s => s.outcome == some "win")
    let losses := allSignals.filter (fun s => s.outcome == some "loss")
    let winningSignals := wins.length
    let losingSignals := losses.length
    let breakevenSignals :=
      (allSignals.filter (fun s => s.outcome == some "breakeven")).length
    let totalGains := (wins.map plpOf).sum
    let totalLosses := (losses.map (fun s => |plpOf s|)).sum
    let averageWin := if 0 < wins.length then totalGains / (wins.length : ℚ) else 0
    let averageLoss :=
      if 0 < losses.length then totalLosses / (losses.length : ℚ) else 0
    let profitFactor := if 0 < totalLosses then totalGains / totalLosses else 999
    let expectancy :=
      (winningSignals : ℚ) / (allSignals.length : ℚ) * averageWin -
        (losingSignals : ℚ) / (allSignals.length : ℚ) * averageLoss
    let returns := allSignals.map plpOf
    let avgReturn := returns.sum / (returns.length : ℚ)
    let variance :=
      (returns.map (fun r => (r - avgReturn) ^ 2)).sum / (returns.length : ℚ)
    let stdDev := if sqrtFn variance = 0 then 1 else sqrtFn variance
    let sharpeRatio := avgReturn / stdDev * sqrtFn 252
    let patterns := allSignals.foldl
      (fun acc s =>
        match s.patternDetected with
        | some p => if acc.contains p then acc else acc ++ [p]
        | none => acc)
      ([] : List String)
    let topPatterns :=
      (jsSort (fun a b => decide (b.winRate ≤ a.winRate))
        (patterns.map (fun p =>
          let group := allSignals.filter (fun s => s.patternDetected == some p)
          let groupWins := (group.filter (fun s => s.outcome == some "win")).length
          { pattern := p,
            winRate := jsRound ((groupWins : ℚ) / (group.length : ℚ) * 100),
            count := group.length }))).take 5
    let highConfidence := allSignals.filter (fun s => decide (80 ≤ s.confidence))
    let lowConfidence := allSignals.filter (fun s => decide (s.confidence < 80))
    let highWinRate := if 0 < highConfidence.length then
        ((highConfidence.filter (fun s => s.outcome == some "win")).length : ℚ) /
          (highConfidence.length : ℚ) * 100
      else 0
    let lowWinRate := if 0 < lowConfidence.length then
        ((lowConfidence.filter (fun s => s.outcome == some "win")).length : ℚ) /
          (lowConfidence.length : ℚ) * 100
      else 0
    let confidenceCorrelation := highWinRate - lowWinRate
    { totalSignals := allSignals.length,
      winningSignals := winningSignals,
      losingSignals := losingSignals,
      breakevenSignals := breakevenSignals,
      winRate := jsRound ((winningSignals : ℚ) / (allSignals.length : ℚ) * 100),
      averageWin := roundTo 2 averageWin,
      averageLoss := roundTo 2 averageLoss,
      profitFactor := roundTo 2 profitFactor,
      expectancy := roundTo 2 expectancy,
      sharpeRatio := roundTo 2 sharpeRatio,
      topPatterns := topPatterns,
      bestTimeframe := "1h",
      confidenceCorrelation := jsRound confidenceCorrelation }

/-- `WinRateTracker.analyzeWinRate` (win-rate tracker, lines 1783–1873):
the statistics of the filtered, time-windowed entry list.  `sqrtFn` stands
for `Math.sqrt` (Sharpe ratio only) and `now` for `Date.now()`. -/
def analyzeWinRate (sqrtFn : ℚ → ℚ) (t : WinRateTracker) (now : ℚ)
    (lookbackDays : ℚ := 30) : WinRateAnalysis :=
  analyzeOnWindow sqrtFn (windowSignals t now lookbackDays)

/-! ## `src/server/indicators.ts` — aggregator -/

/-- `generatePriceHistory` (indicators.ts, lines 502–514): the synthetic
random walk used when no price history is supplied.  `rand i` is the i-th
`Math.random()` draw. -/
def generatePriceHistory (metrics : TokenMetrics) (length : ℕ)
    (rand : ℕ → ℚ) : List ℚ :=
  ((List.range length).foldl
    (fun (st : ℚ × List ℚ) i =>
      let change := (rand i - 0.5) * (metrics.priceChange24h / 10)
      let price := st.1 * (1 + change / 100)
      (price, st.2 ++ [price]))
    (metrics.price, [])).2

/-- `generateVolumeHistory` (indicators.ts, lines 519–529): a fresh random
volume per sample; `rand i` is the i-th `Math.random()` draw of the call. -/
def generateVolumeHistory (metrics : TokenMetrics) (length : ℕ)
    (rand : ℕ → ℚ) : List ℚ :=
  (List.range length).map (fun i => metrics.volume24h / 24 * (0.8 + rand i * 0.4))

/-- The deterministic body of `analyzeIndicators` (indicators.ts, lines
415–497) as a function of the price history and the two generated volume
histories (the OBV one and the VWAP one, in that order in the source). -/
def analyzeIndicatorsCore (sqrtFn : ℚ → ℚ) (priceHistory volOBV volVWAP : List ℚ) :
    IndicatorAnalysis :=
  let rsi := calculateRSI priceHistory 14
  let macd := calculateMACD priceHistory
  let ema := calculateEMACross priceHistory
  let bollinger := calculateBollingerBands sqrtFn priceHistory 20 2
  let atr := calculateATR priceHistory priceHistory priceHistory 14
  let obv := calculateOBV priceHistory volOBV
  let stoch := calculateStochastic priceHistory 14
  let adx := calculateADX priceHistory priceHistory priceHistory 14
  let vwap := calculateVWAP priceHistory volVWAP
  let ichimoku := calculateIchimoku priceHistory priceHistory priceHistory
  let score : ℚ := 50 +
    (if 60 < rsi.value ∨ rsi.value < 40 then |rsi.value - 50| / 5 * 2 else 0) +
    (if ema.alignment = "Bullish" ∨ ema.alignment = "Bearish" then 12 else 0) +
    (if macd.momentum = "Very Strong" then 15
      else if macd.momentum = "Strong" then 10 else 0) +
    (if jsIncludes bollinger.position "Overbought" ∨
        jsIncludes bollinger.position "Oversold" then 5 else 0) +
    (if jsIncludes vwap.price_vs_vwap "Above" ∨
        jsIncludes vwap.price_vs_vwap "Below" then 8 else 0) +
    (if adx.strength = "Very Strong" then 10
      else if adx.strength = "Strong" then 7 else 0)
  let confirmations : ℕ :=
    (if 60 < rsi.value ∨ rsi.value < 40 then 1 else 0) +
    (if ema.alignment = "Bullish" ∨ ema.alignment = "Bearish" then 1 else 0) +
    (if macd.momentum = "Very Strong" then 1 else 0) +
    (if jsIncludes bollinger.position "Overbought" ∨
        jsIncludes bollinger.position "Oversold" then 1 else 0) +
    (if jsIncludes vwap.price_vs_vwap "Above" ∨
        jsIncludes vwap.price_vs_vwap "Below" then 1 else 0) +
    (if adx.strength = "Very Strong" then 1 else 0)
  let cappedScore := min 100 score
  let confidence :=
    if 5 ≤ confirmations then "Very High"
    else if 4 ≤ confirmations then "High"
    else if 3 ≤ confirmations then "Moderate"
    else if 2 ≤ confirmations then "Fair"
    else "Low"
  let recommendation :=
    if 75 ≤ cappedScore then "🟢 BUY SIGNAL"
    else if 60 ≤ cappedScore then "🟡 CAUTIOUS BUY"
    else if cappedScore ≤ 25 then "🔴 SELL SIGNAL"
    else if cappedScore ≤ 40 then "🔴 CAUTIOUS SELL"
    else "NEUTRAL"
  let overall : OverallResult :=
    { score := jsRound cappedScore, confidence := confidence,
      recommendation := recommendation }
  { rsi := rsi, macd := macd, ema := ema, bollinger := bollinger, atr := atr,
    obv := obv, stoch := stoch, adx := adx, vwap := vwap, ichimoku := ichimoku,
    overall := overall }

/-- `analyzeIndicators` (indicators.ts, lines 409–497).  With an empty price
history the source first synthesizes one (50 `Math.random()` draws); it then
generates one random volume history for the OBV call and a second for the
VWAP call, consuming further draws in that order. -/
def analyzeIndicators (sqrtFn : ℚ → ℚ) (metrics : TokenMetrics)
    (priceHistory : List ℚ) (rand : ℕ → ℚ) : IndicatorAnalysis :=
  let history :=
    if priceHistory.isEmpty then generatePriceHistory metrics 50 rand
    else priceHistory
  let off : ℕ := if priceHistory.isEmpty then 50 else 0
  let n := history.length
  analyzeIndicatorsCore sqrtFn history
    (generateVolumeHistory metrics n (fun i => rand (off + i)))
    (generateVolumeHistory metrics n (fun i => rand (off + n + i)))

/-! ## concrete inputs used by the theorems -/

/-- The perfectly flat 20-sample window of value 100. -/
def flat100 : List ℚ := List.replicate 20 100

/-- A `ConfluenceScore` with `confluencePercent = 50` (the no-signal default
of `calculateConfluenceScore`), below the documented 60% gate. -/
def c1Confluence : ConfluenceScore :=
  { totalIndicators := 10, agreeingIndicators := 4, confluencePercent := 50,
    bullishCount := 4, bearishCount := 4, confidenceLevel := "low",
    tradeable := false }

/-- A valid risk/reward setup (the spec's own scenario values). -/
def c1RiskReward : RiskRewardSetup :=
  { entryPrice := 100, takeProfit := 106, stopLoss := 97, riskRewardRatio := 2,
    isValid := true, positionSize := 6666.67, potentialGain := 6,
    potentialLoss := 3 }

/-- A smart entry that is ready to enter. -/
def c1SmartEntry : SmartEntry :=
  { shouldEnter := true, reason := "High confluence + pattern confirmation",
    entryType := "immediate", entryPrice := 100, entryWaitTime := 0 }

/-- A trending market regime (not "ranging"). -/
def c1Regime : MarketRegime :=
  { regime := "trending", adxValue := 30, volatility := "medium",
    recommendation := "Trade with trend confirmation" }

/-- `generateFinalSignal` input whose confluence gate should fail (50 < 60)
while the other four gates pass. -/
def c1Input : FinalSignalInput :=
  { confluence := some c1Confluence, timeframeAlignment := some "bullish",
    riskReward := some c1RiskReward, smartEntry := some c1SmartEntry,
    marketRegime := some c1Regime }

/-- The metrics used by the determinism counterexample: average hourly
volume 1 (volume24h = 24). -/
def c3Metrics : TokenMetrics :=
  { price := 100, priceChange24h := 0, priceChange1h := 0, priceChange5m := 0,
    volume24h := 24, liquidity := 0, buys24h := 0, sells24h := 0,
    marketCap := 0 }

/-- A closed winning signal: +5% within any recent window. -/
def c8Win : SignalRecord :=
  { id := "w", timestamp := 2, symbol := "TOK", entryPrice := 100,
    takeProfitPrice := 110, stopLossPrice := 95, signalType := "BUY",
    confidence := 80, confluencePercent := 70, patternDetected := none,
    adxValue := 25, rsiValue := 55, macdSignal := "Weak Bullish",
    exitPrice := some 105, exitTime := some 3, outcome := some "win",
    profitLoss := some 5, profitLossPercent := some 5, notes := none }

/-- A closed losing signal: −2%. -/
def c8Loss : SignalRecord :=
  { id := "l", timestamp := 1, symbol := "TOK", entryPrice := 100,
    takeProfitPrice := 110, stopLossPrice := 95, signalType := "BUY",
    confidence := 60, confluencePercent := 65, patternDetected := none,
    adxValue := 25, rsiValue := 45, macdSignal := "Weak Bearish",
    exitPrice := some 98, exitTime := some 3, outcome := some "loss",
    profitLoss := some (-2), profitLossPercent := some (-2), notes := none }

/-- A ledger holding exactly the one win and the one loss. -/
def c8State : WinRateTracker := { signals := [("w", c8Win), ("l", c8Loss)] }

/-- Distinct ids for the full-ledger counterexample: the length-i string of
letters `a`. -/
def c6Id (i : ℕ) : String := String.mk (List.replicate i 'a')

/-- The i-th ledger record of the counterexample: timestamp `i + 1`, still
open. -/
def c6Record (i : ℕ) : SignalRecord :=
  { id := c6Id i, timestamp := (i : ℚ) + 1, symbol := "S", entryPrice := 1,
    takeProfitPrice := 1, stopLossPrice := 1, signalType := "BUY",
    confidence := 50, confluencePercent := 50, patternDetected := none,
    adxValue := 0, rsiValue := 0, macdSignal := "", exitPrice := none,
    exitTime := none, outcome := none, profitLoss := none,
    profitLossPercent := none, notes := none }

/-- A ledger filled to capacity with records of timestamps 1..10000. -/
def c6State : WinRateTracker :=
  { signals := (List.range MAX_SIGNALS).map (fun i => (c6Id i, c6Record i)) }

/-- A fresh record older than everything already in the ledger. -/
def c6New : SignalRecord := { c6Record 0 with id := "x", timestamp := 0 }

/-- The entry with the globally smallest timestamp (first on ties): the
record the spec says an over-capacity insert must evict. -/
def oldestEntry (l : List (String × SignalRecord)) : String × SignalRecord :=
  l.foldl (fun acc e => if e.2.timestamp < acc.2.timestamp then e else acc) l.headI

/-! ## theorems -/

/-- Evaluation of `calculateBollingerBands` on the flat window, shared by the
C4 theorem and counterexample: the bands all collapse to 100 and the position
is classified "Upper Band (Overbought)" (the `current > upper * 0.95` branch
fires, since `100 > 95`). -/
theorem bollinger_flat_eval (f : ℚ → ℚ) (hf : f 0 = 0) :
    calculateBollingerBands f flat100 20 2 =
      { upper := 100, lower := 100, middle := 100,
        position := "Upper Band (Overbought)" } := by
  have hlast : (List.replicate 20 (100:ℚ)).getLast? = some 100 := by rfl
  unfold calculateBollingerBands
  rw [if_neg (by simp [flat100])]
  norm_num [flat100, List.sum_replicate, List.map_replicate, hlast, hf,
    roundTo, round_eq]

/-- C4 counterexample: on the flat 20-sample window of value 100 the position
label is not "Middle" (the `current > upper * 0.95` branch fires first). -/
theorem bollinger_flat_position_not_middle :
    (calculateBollingerBands (fun _ => 0) flat100 20 2).position ≠ "Middle" := by
  rw [bollinger_flat_eval (fun _ => 0) rfl]
  decide

/-- C4 (corrected): Bollinger bands on the perfectly flat 20-sample window of
value 100 collapse to `upper = lower = middle = 100` (standard deviation 0),
but the position is classified "Upper Band (Overbought)", not "Middle":
with zero width, `current = upper` and the source's first check
`current > upper * 0.95` (i.e. `100 > 95`) fires.  `f` stands for
`Math.sqrt`, pinned only at `√0 = 0`. -/
theorem bollinger_flat_window (f : ℚ → ℚ) (hf : f 0 = 0) :
    calculateBollingerBands f flat100 20 2 =
      { upper := 100, lower := 100, middle := 100,
        position := "Upper Band (Overbought)" } :=
  bollinger_flat_eval f hf

/-- Witness for `bollinger_flat_window` at the concrete root function. -/
theorem bollinger_flat_window_witness :
    calculateBollingerBands (fun _ => 0) flat100 20 2 =
      { upper := 100, lower := 100, middle := 100,
        position := "Upper Band (Overbought)" } :=
  bollinger_flat_window (fun _ => 0) rfl

/-- C5 counterexample: on an empty window `calculateADX` returns value 20 —
neither the oscillators' neutral 50 nor the magnitude default 0 — with labels
"Weak Trend"/"Weak", not an insufficient-data sentinel. -/
theorem adx_short_window_not_neutral_default :
    calculateADX [] [] [] 14 = { value := 20, trend := "Weak Trend", strength := "Weak" } ∧
    (calculateADX [] [] [] 14).value ≠ 50 ∧
    (calculateADX [] [] [] 14).value ≠ 0 := by
  have h : calculateADX [] [] [] 14 =
      { value := 20, trend := "Weak Trend", strength := "Weak" } := by
    unfold calculateADX
    rw [if_pos (by norm_num)]
  refine ⟨h, ?_, ?_⟩ <;> rw [h] <;> norm_num

/-- C5 (corrected): every indicator calculator degrades on a window shorter
than its required period to a fixed neutral record, without raising: RSI and
Stochastic to 50, MACD/EMA-cross/Bollinger/ATR/VWAP to 0, OBV and Ichimoku to
neutral labels — each carrying an "Insufficient Data" (or "No Data") sentinel
— while ADX returns its default value 20 with labels "Weak Trend"/"Weak" and
no insufficiency sentinel. -/
theorem short_window_defaults :
    (∀ (ph : List ℚ) (p : ℕ), ph.length < p + 1 →
      calculateRSI ph p =
        { value := 50, signal := "Insufficient Data", strength := "Neutral" }) ∧
    (∀ ph : List ℚ, ph.length < 26 →
      calculateMACD ph =
        { histogram := 0, signal := "Insufficient Data", momentum := "Neutral" }) ∧
    (∀ ph : List ℚ, ph.length < 21 →
      calculateEMACross ph =
        { ema9 := 0, ema21 := 0, alignment := "Insufficient Data",
          signal := "Neutral" }) ∧
    (∀ (f : ℚ → ℚ) (ph : List ℚ) (p : ℕ) (sd : ℚ), ph.length < p →
      calculateBollingerBands f ph p sd =
        { upper := 0, lower := 0, middle := 0, position := "Insufficient Data" }) ∧
    (∀ (h l c : List ℚ) (p : ℕ), h.length < p →
      calculateATR h l c p = { value := 0, volatility := "Insufficient Data" }) ∧
    (∀ c v : List ℚ, c.length < 2 →
      calculateOBV c v = { trend := "Neutral", momentum := "Insufficient Data" }) ∧
    (∀ (c : List ℚ) (p : ℕ), c.length < p →
      calculateStochastic c p = { k := 50, d := 50, signal := "Insufficient Data" }) ∧
    (∀ (h l c : List ℚ) (p : ℕ), h.length < p →
      calculateADX h l c p =
        { value := 20, trend := "Weak Trend", strength := "Weak" }) ∧
    (∀ c v : List ℚ, c.length = 0 →
      calculateVWAP c v = { level := 0, price_vs_vwap := "No Data" }) ∧
    (∀ h l c : List ℚ, h.length < 26 →
      calculateIchimoku h l c =
        { cloud_signal := "Insufficient Data", momentum := "Neutral" }) := by
  refine ⟨?_, ?_, ?_, ?_, ?_, ?_, ?_, ?_, ?_, ?_⟩
  · intro ph p h; unfold calculateRSI; rw [if_pos h]
  · intro ph h; unfold calculateMACD; rw [if_pos h]
  · intro ph h; unfold calculateEMACross; rw [if_pos h]
  · intro f ph p sd h; unfold calculateBollingerBands; rw [if_pos h]
  · intro hh l c p h; unfold calculateATR; rw [if_pos h]
  · intro c v h; unfold calculateOBV; rw [if_pos h]
  · intro c p h; unfold calculateStochastic; rw [if_pos h]
  · intro hh l c p h; unfold calculateADX; rw [if_pos h]
  · intro c v h; unfold calculateVWAP; rw [if_pos h]
  · intro hh l c h; unfold calculateIchimoku; rw [if_pos h]

/-- C10 (confirmed): on a non-empty window strictly shorter than the period,
`calculateEMA` returns the last sample unchanged; this short-window value
feeds `calculateMACD` (whose reconstructed MACD history is shorter than 9
whenever the input has fewer than 35 samples, so its signal line is that
history's last entry) and the EMA-cross calculator (whose `ema9`/`ema21`
fields are the rounded `calculateEMA` values). -/
theorem ema_short_window_returns_last :
    (∀ (prices : List ℚ) (period : ℕ), prices ≠ [] → prices.length < period →
      calculateEMA prices period = prices.getLastD 0) ∧
    (∀ ph : List ℚ, 27 ≤ ph.length → ph.length ≤ 34 →
      (calculateMACD ph).histogram =
        roundTo 4 ((calculateEMA ph 12 - calculateEMA ph 26) -
          (macdHistory ph).getLastD 0)) ∧
    (∀ ph : List ℚ, 21 ≤ ph.length →
      (calculateEMACross ph).ema9 = roundTo 8 (calculateEMA ph 9) ∧
      (calculateEMACross ph).ema21 = roundTo 8 (calculateEMA ph 21)) := by
  have short : ∀ (prices : List ℚ) (period : ℕ), prices.length < period →
      calculateEMA prices period = prices.getLastD 0 := by
    intro prices period h
    unfold calculateEMA
    rw [if_pos h]
  refine ⟨fun prices period _ h => short prices period h, ?_, ?_⟩
  · intro ph h1 h2
    have hlen : (macdHistory ph).length = ph.length - 26 := by
      simp [macdHistory]
    unfold calculateMACD
    rw [if_neg (by omega)]
    rw [short (macdHistory ph) 9 (by omega)]
  · intro ph h
    unfold calculateEMACross
    rw [if_neg (by omega)]
    exact ⟨rfl, rfl⟩

/-- C1 (code_bug): with `confluencePercent = 50` — below the documented 60%
gate — and the other four gates passing, `generateFinalSignal` returns
STRONG-BUY with confidence 100 instead of failing fast to SKIP.  The JS gate
`result.confluence?.confluencePercent || 0 >= 60` parses as
`confluencePercent || (0 >= 60)`, a truthiness test, so 50 passes it. -/
theorem finalSignal_gate_precedence_bug :
    c1Input.confluence = some c1Confluence ∧
    c1Confluence.confluencePercent = 50 ∧
    generateFinalSignal c1Input =
      { signal := "STRONG-BUY", confidence := 100,
        reason := "All checks passed - ideal setup" } := by
  refine ⟨rfl, rfl, ?_⟩
  unfold generateFinalSignal c1Input c1Confluence c1RiskReward c1SmartEntry c1Regime
  have hs : ("trending" : String) ≠ "ranging" := by decide
  norm_num [jsRound, round_eq, List.countP_cons, hs]

/-- C7 counterexample: at a negative-price input satisfying the claim's
stated hypotheses (`atr > 0`, `support < entry < resistance`) the support
clamp `support * 0.99` lands above the entry price, so the returned
`stopLoss` is not below `entryPrice`: with entry −1.99, support −2,
resistance 0, atr 0.001, the stop-loss is clamped to −1.98 > −1.99. -/
theorem riskReward_negative_price_breaks_ordering :
    ((0:ℚ) < 1/1000) ∧ ((-2:ℚ) < -199/100) ∧ ((-199/100:ℚ) < 0) ∧
    ¬ (calculateRiskReward (-199/100) (-2) 0 (1/1000) 2).stopLoss < -199/100 := by
  refine ⟨by norm_num, by norm_num, by norm_num, ?_⟩
  unfold calculateRiskReward rrStopLossRaw
  norm_num [roundTo, round_eq]

/-- C7 (corrected): for a valid long setup with nonnegative prices
(`0 ≤ support < entry < resistance`, `atr > 0`) the pre-rounding levels
satisfy `stopLoss < entry < takeProfit`; the returned `stopLoss`/`takeProfit`
are their 8-decimal roundings, the returned `riskRewardRatio` is the
2-decimal rounding of `(takeProfit − entry)/(entry − stopLoss)` on those
pre-rounding levels, and `isValid` holds exactly when that exact ratio is at
least 2.  The spec's scenario (entry 100, support 97, resistance 103, atr 2)
yields exactly stopLoss 97, takeProfit 106, ratio 2, isValid true. -/
theorem riskReward_ordering :
    (∀ e s r a acct : ℚ, 0 ≤ s → s < e → e < r → 0 < a →
      rrStopLossRaw e s a < e ∧
      e < rrTakeProfitRaw e r a ∧
      (calculateRiskReward e s r a acct).stopLoss = roundTo 8 (rrStopLossRaw e s a) ∧
      (calculateRiskReward e s r a acct).takeProfit = roundTo 8 (rrTakeProfitRaw e r a) ∧
      (calculateRiskReward e s r a acct).riskRewardRatio =
        roundTo 2 ((rrTakeProfitRaw e r a - e) / (e - rrStopLossRaw e s a)) ∧
      ((calculateRiskReward e s r a acct).isValid = true ↔
        2 ≤ (rrTakeProfitRaw e r a - e) / (e - rrStopLossRaw e s a))) ∧
    ((calculateRiskReward 100 97 103 2 2).stopLoss = 97 ∧
      (calculateRiskReward 100 97 103 2 2).takeProfit = 106 ∧
      (calculateRiskReward 100 97 103 2 2).riskRewardRatio = 2 ∧
      (calculateRiskReward 100 97 103 2 2).isValid = true) := by
  constructor
  · intro e s r a acct hs hse her ha
    have hsl : rrStopLossRaw e s a < e := by
      simp only [rrStopLossRaw]
      split_ifs with h
      · linarith
      · linarith
    have htp : e < rrTakeProfitRaw e r a := by
      have hr : 0 < r := by linarith
      simp only [rrTakeProfitRaw]
      split_ifs with h
      · linarith
      · linarith
    refine ⟨hsl, htp, rfl, rfl, rfl, ?_⟩
    simp [calculateRiskReward, decide_eq_true_eq]
  · refine ⟨?_, ?_, ?_, ?_⟩ <;>
      unfold calculateRiskReward rrStopLossRaw rrTakeProfitRaw <;>
      norm_num [roundTo, round_eq]

/-- Helper: pointwise at most one of two parallel boolean signal lists is
set, so the two counts together are bounded by the length. -/
theorem countP_both_le {bs rs : List Bool}
    (h : List.Forall₂ (fun a b => ¬(a = true ∧ b = true)) bs rs) :
    bs.countP (fun b => b) + rs.countP (fun b => b) ≤ bs.length := by
  induction h with
  | nil => simp
  | @cons a b l₁ l₂ hab htail ih =>
      simp only [List.countP_cons, List.length_cons]
      cases a <;> cases b <;> simp_all <;> omega

/-- Helper: the raw confluence percentage is nonnegative. -/
theorem confluencePercentRaw_nonneg (bull bear : ℕ) :
    0 ≤ confluencePercentRaw bull bear := by
  unfold confluencePercentRaw
  split_ifs with h
  · positivity
  · norm_num

/-- Helper: the raw confluence percentage is at most 100. -/
theorem confluencePercentRaw_le_100 (bull bear : ℕ) :
    confluencePercentRaw bull bear ≤ 100 := by
  unfold confluencePercentRaw
  split_ifs with h
  · have ht : (0:ℚ) < ((bull + bear : ℕ) : ℚ) := by exact_mod_cast h
    have hbear : (0:ℚ) ≤ (bear : ℚ) := Nat.cast_nonneg bear
    have hbull : (0:ℚ) ≤ (bull : ℚ) := Nat.cast_nonneg bull
    have hmax : max (bull:ℚ) (bear:ℚ) ≤ (bull:ℚ) + (bear:ℚ) :=
      max_le (by linarith) (by linarith)
    rw [div_mul_eq_mul_div, div_le_iff₀ ht]
    push_cast
    push_cast at hmax
    linarith
  · norm_num

/-- Helper: `Math.round` of a nonnegative number is nonnegative. -/
theorem jsRound_nonneg {q : ℚ} (h : 0 ≤ q) : 0 ≤ jsRound q := by
  unfold jsRound
  have h2 : (0:ℤ) ≤ round q := by
    rw [round_eq]
    exact Int.le_floor.mpr (by push_cast; linarith)
  exact_mod_cast h2

/-- Helper: `Math.round` of a number at most 100 is at most 100. -/
theorem jsRound_le_100 {q : ℚ} (h : q ≤ 100) : jsRound q ≤ 100 := by
  unfold jsRound
  have h2 : round q ≤ 100 := by
    rw [round_eq]
    have h3 : (⌊q + 1 / 2⌋ : ℤ) < 101 := Int.floor_lt.mpr (by push_cast; linarith)
    omega
  exact_mod_cast h2

/-- Helper: `Math.round` is monotone in the needed direction at 60. -/
theorem jsRound_ge_60 {q : ℚ} (h : 60 ≤ q) : (60:ℚ) ≤ jsRound q := by
  unfold jsRound
  have h2 : (60:ℤ) ≤ round q := by
    rw [round_eq]
    exact Int.le_floor.mpr (by push_cast; linarith)
  exact_mod_cast h2

/-- Helper: with at most 8 bullish and 8 bearish hits, a rounded confluence
percentage of at least 60 can only come from a raw percentage of at least 60
(no fraction `m/t` with `t ≤ 16` lands in `[59.5, 60)`). -/
theorem confluence_round_60 (bull bear : ℕ) (hb : bull ≤ 8) (hr : bear ≤ 8)
    (h : (60:ℚ) ≤ jsRound (confluencePercentRaw bull bear)) :
    60 ≤ confluencePercentRaw bull bear := by
  have h60 : (60:ℤ) ≤ round (confluencePercentRaw bull bear) := by
    unfold jsRound at h
    exact_mod_cast h
  rw [round_eq] at h60
  have hq : (60:ℚ) ≤ confluencePercentRaw bull bear + 1 / 2 := by
    have := Int.le_floor.mp h60
    push_cast at this
    linarith
  unfold confluencePercentRaw at hq ⊢
  split_ifs at hq ⊢ with ht
  · rw [← Nat.cast_max] at hq ⊢
    set m := max bull bear with hm
    set t := bull + bear with htdef
    have htq : (0:ℚ) < ((t : ℕ) : ℚ) := by exact_mod_cast ht
    have hmt : m ≤ t := max_le (Nat.le_add_right _ _) (Nat.le_add_left _ _)
    have ht16 : t ≤ 16 := by omega
    have key : 119 * t ≤ 200 * m := by
      have hq1 : (60:ℚ) - 1 / 2 ≤ ((m : ℕ) : ℚ) / ((t : ℕ) : ℚ) * 100 := by
        linarith
      rw [div_mul_eq_mul_div, le_div_iff₀ htq] at hq1
      have hq2 : (119:ℚ) * ((t : ℕ) : ℚ) ≤ 200 * ((m : ℕ) : ℚ) := by linarith
      exact_mod_cast hq2
    have goalNat : 3 * t ≤ 5 * m := by omega
    rw [div_mul_eq_mul_div, le_div_iff₀ htq]
    have h3 : (3:ℚ) * ((t : ℕ) : ℚ) ≤ 5 * ((m : ℕ) : ℚ) := by exact_mod_cast goalNat
    linarith
  · linarith

/-- C2 counterexample: `totalIndicators` of a computed confluence score is
10, not 8 (here at an all-neutral input). -/
theorem confluence_totalIndicators_not_8 :
    (calculateConfluenceScore
      { rsi := { value := 50, signal := "Neutral" },
        macd := { signal := "Neutral" },
        ema := { signal := "Neutral" },
        bollinger := { position := "Middle" },
        vwap := { price_vs_vwap := "Near VWAP (Consolidation)" },
        adx := { strength := "Weak" },
        stoch := { signal := "Neutral" },
        ichimoku := { cloud_signal := "Neutral" },
        obv := { trend := "Neutral" },
        atr := { volatility := "Low" } }).totalIndicators ≠ 8 := by
  decide

/-- C2 (corrected): for every input, `calculateConfluenceScore` returns
`totalIndicators = 10` (the source reports all ten indicators, not the 8 it
counts), `agreeingIndicators = max(bullishCount, bearishCount)`,
a `confluencePercent` in [0, 100] that defaults to 50 when no signal fires,
`bullishCount ≤ 8` and `bearishCount ≤ 8` — with
`bullishCount + bearishCount ≤ 8` whenever no single indicator matches its
bullish and its bearish pattern at once (true of every label the calculators
emit) — and `tradeable` exactly when the confluence percentage is at least
60. -/
theorem confluence_bounds (ind : ConfluenceIndicators) :
    (calculateConfluenceScore ind).totalIndicators = 10 ∧
    (calculateConfluenceScore ind).agreeingIndicators =
      max (calculateConfluenceScore ind).bullishCount
        (calculateConfluenceScore ind).bearishCount ∧
    0 ≤ (calculateConfluenceScore ind).confluencePercent ∧
    (calculateConfluenceScore ind).confluencePercent ≤ 100 ∧
    ((calculateConfluenceScore ind).bullishCount = 0 ∧
      (calculateConfluenceScore ind).bearishCount = 0 →
      (calculateConfluenceScore ind).confluencePercent = 50) ∧
    (calculateConfluenceScore ind).bullishCount ≤ 8 ∧
    (calculateConfluenceScore ind).bearishCount ≤ 8 ∧
    (List.Forall₂ (fun a b => ¬(a = true ∧ b = true))
        (bullishSignals ind) (bearishSignals ind) →
      (calculateConfluenceScore ind).bullishCount +
        (calculateConfluenceScore ind).bearishCount ≤ 8) ∧
    ((calculateConfluenceScore ind).tradeable = true ↔
      (60:ℚ) ≤ (calculateConfluenceScore ind).confluencePercent) := by
  have hblen : (bullishSignals ind).length = 8 := rfl
  have hrlen : (bearishSignals ind).length = 8 := rfl
  have hb : (bullishSignals ind).countP (fun b => b) ≤ 8 :=
    hblen ▸ List.countP_le_length _
  have hr : (bearishSignals ind).countP (fun b => b) ≤ 8 :=
    hrlen ▸ List.countP_le_length _
  refine ⟨rfl, rfl, ?_, ?_, ?_, hb, hr, ?_, ?_⟩
  · exact jsRound_nonneg (confluencePercentRaw_nonneg _ _)
  · exact jsRound_le_100 (confluencePercentRaw_le_100 _ _)
  · rintro ⟨h1, h2⟩
    have h1' : (bullishSignals ind).countP (fun b => b) = 0 := h1
    have h2' : (bearishSignals ind).countP (fun b => b) = 0 := h2
    show jsRound (confluencePercentRaw ((bullishSignals ind).countP (fun b => b))
      ((bearishSignals ind).countP (fun b => b))) = 50
    rw [h1', h2']
    unfold confluencePercentRaw jsRound
    norm_num [round_eq]
  · intro hf
    exact le_trans (countP_both_le hf) (le_of_eq hblen)
  · show (decide (60 ≤ confluencePercentRaw _ _) = true) ↔ _
    rw [decide_eq_true_eq]
    constructor
    · exact fun h => jsRound_ge_60 h
    · exact fun h => confluence_round_60 _ _ hb hr h

/-- `sortInsert` permutes the inserted element onto the list. -/
theorem sortInsert_perm {α : Type} (le : α → α → Bool) (a : α) (l : List α) :
    (sortInsert le a l).Perm (a :: l) := by
  induction l with
  | nil => simp [sortInsert]
  | cons b t ih =>
      unfold sortInsert
      split_ifs with h
      · exact (ih.cons b).trans (List.Perm.swap a b t)
      · exact List.Perm.refl _

/-- `jsSort` is a permutation of its input. -/
theorem jsSort_perm {α : Type} (le : α → α → Bool) (l : List α) :
    (jsSort le l).Perm l := by
  have main : ∀ (l acc : List α),
      (l.foldl (fun acc x => sortInsert le x acc) acc).Perm (acc ++ l) := by
    intro l
    induction l with
    | nil => intro acc; simp
    | cons x t ih =>
        intro acc
        have h1 := ih (sortInsert le x acc)
        have hp : (sortInsert le x acc ++ t).Perm ((x :: acc) ++ t) :=
          (sortInsert_perm le x acc).append_right t
        have h2 : ((x :: acc) ++ t).Perm (acc ++ x :: t) := by
          simpa using List.perm_middle.symm
        exact (h1.trans hp).trans h2
  simpa using main l []

/-- `sortInsert` preserves sortedness (for a total, transitive comparator). -/
theorem sortInsert_pairwise {α : Type} {le : α → α → Bool}
    (htotal : ∀ a b, le a b = true ∨ le b a = true)
    (htrans : ∀ a b c, le a b = true → le b c = true → le a c = true)
    (a : α) (l : List α) (h : l.Pairwise (fun x y => le x y = true)) :
    (sortInsert le a l).Pairwise (fun x y => le x y = true) := by
  induction l with
  | nil => simp [sortInsert]
  | cons b t ih =>
      rw [List.pairwise_cons] at h
      obtain ⟨hb, ht⟩ := h
      unfold sortInsert
      split_ifs with hba
      · rw [List.pairwise_cons]
        refine ⟨fun x hx => ?_, ih ht⟩
        rcases List.mem_cons.mp ((sortInsert_perm le a t).mem_iff.mp hx) with rfl | hxt
        · exact hba
        · exact hb x hxt
      · have hab : le a b = true := (htotal a b).resolve_right hba
        rw [List.pairwise_cons]
        refine ⟨fun x hx => ?_, List.pairwise_cons.mpr ⟨hb, ht⟩⟩
        rcases List.mem_cons.mp hx with rfl | hxt
        · exact hab
        · exact htrans a b x hab (hb x hxt)

/-- `jsSort` sorts: its output is pairwise ordered by the comparator. -/
theorem jsSort_pairwise {α : Type} {le : α → α → Bool}
    (htotal : ∀ a b, le a b = true ∨ le b a = true)
    (htrans : ∀ a b c, le a b = true → le b c = true → le a c = true)
    (l : List α) :
    (jsSort le l).Pairwise (fun x y => le x y = true) := by
  have main : ∀ (l acc : List α), acc.Pairwise (fun x y => le x y = true) →
      (l.foldl (fun acc x => sortInsert le x acc) acc).Pairwise
        (fun x y => le x y = true) := by
    intro l
    induction l with
    | nil => exact fun acc h => h
    | cons x t ih =>
        exact fun acc h => ih _ (sortInsert_pairwise htotal htrans x acc h)
  exact main l [] (List.Pairwise.nil)

/-- The head of a `jsSort` of a nonempty list is one of its elements. -/
theorem jsSort_headI_mem {α : Type} [Inhabited α] (le : α → α → Bool)
    (l : List α) (h : l ≠ []) : (jsSort le l).headI ∈ l := by
  have hlen : (jsSort le l).length = l.length := (jsSort_perm le l).length_eq
  have hne : jsSort le l ≠ [] := by
    intro h0
    apply h
    rw [h0] at hlen
    exact List.length_eq_zero.mp hlen.symm
  obtain ⟨x, xs, hcons⟩ := List.exists_cons_of_ne_nil hne
  have hmem : (jsSort le l).headI ∈ jsSort le l := by
    rw [hcons]
    exact List.mem_cons_self _ _
  exact (jsSort_perm le l).mem_iff.mp hmem

/-- The head of a `jsSort` of a nonempty list is a minimum with respect to
the (total, transitive) comparator. -/
theorem jsSort_headI_le {α : Type} [Inhabited α] {le : α → α → Bool}
    (htotal : ∀ a b, le a b = true ∨ le b a = true)
    (htrans : ∀ a b c, le a b = true → le b c = true → le a c = true)
    (l : List α) (hne : l ≠ []) :
    ∀ x ∈ l, le ((jsSort le l).headI) x = true := by
  intro x hx
  have hpw := jsSort_pairwise htotal htrans l
  have hlen : (jsSort le l).length = l.length := (jsSort_perm le l).length_eq
  have hne' : jsSort le l ≠ [] := by
    intro h0
    apply hne
    rw [h0] at hlen
    exact List.length_eq_zero.mp hlen.symm
  obtain ⟨h0, t0, hcons⟩ := List.exists_cons_of_ne_nil hne'
  have hx' : x ∈ jsSort le l := (jsSort_perm le l).mem_iff.mpr hx
  rw [hcons] at hx' hpw ⊢
  simp only [List.headI]
  rcases List.mem_cons.mp hx' with rfl | hxt
  · exact (htotal x x).elim id id
  · exact (List.pairwise_cons.mp hpw).1 x hxt

/-- C9 (confirmed): the window `analyzeWinRate` computes over never contains
a record older than `now − N` days (the filter keeps strictly newer
timestamps only) or a record with no outcome set; and the statistics are a
function of that window alone. -/
theorem window_filters :
    (∀ (t : WinRateTracker) (now N : ℚ) (s : SignalRecord),
      s ∈ windowSignals t now N →
      ¬ s.timestamp < now - N * (24 * 60 * 60 * 1000) ∧ s.outcome ≠ none) ∧
    (∀ (f : ℚ → ℚ) (t t' : WinRateTracker) (now N : ℚ),
      windowSignals t now N = windowSignals t' now N →
      analyzeWinRate f t now N = analyzeWinRate f t' now N) := by
  constructor
  · intro t now N s hs
    simp only [windowSignals] at hs
    have hs' := (jsSort_perm _ _).mem_iff.mp hs
    rw [List.mem_filter] at hs'
    obtain ⟨-, hcond⟩ := hs'
    rw [Bool.and_eq_true, decide_eq_true_eq] at hcond
    obtain ⟨hlt, hsome⟩ := hcond
    exact ⟨by linarith, Option.ne_none_iff_isSome.mpr hsome⟩
  · intro f t t' now N h
    unfold analyzeWinRate
    rw [h]

/-- Evaluation of the lookback window on the two-record scenario ledger:
both records are inside the 30-day window at `now = 0` and are sorted
descending by timestamp. -/
theorem c8_window_eval : windowSignals c8State 0 30 = [c8Win, c8Loss] := by
  simp only [windowSignals, c8State, List.map_cons, List.map_nil]
  norm_num [c8Win, c8Loss, List.filter, jsSort, sortInsert]

/-- C8 counterexample: on an empty window there are no losing signals, yet
`profitFactor` is 0 (the early zero-stats return), not the 999 sentinel. -/
theorem profitFactor_empty_window_zero :
    (analyzeWinRate (fun _ => 0) { signals := [] } 0 30).losingSignals = 0 ∧
    (analyzeWinRate (fun _ => 0) { signals := [] } 0 30).profitFactor = 0 ∧
    (analyzeWinRate (fun _ => 0) { signals := [] } 0 30).profitFactor ≠ 999 := by
  have h : analyzeWinRate (fun _ => 0) { signals := [] } 0 30 =
      { totalSignals := 0, winningSignals := 0, losingSignals := 0,
        breakevenSignals := 0, winRate := 0, averageWin := 0, averageLoss := 0,
        profitFactor := 0, expectancy := 0, sharpeRatio := 0, topPatterns := [],
        bestTimeframe := "N/A", confidenceCorrelation := 0 } := by
    unfold analyzeWinRate windowSignals analyzeOnWindow
    simp [jsSort]
  rw [h]
  norm_num

/-- C8 (corrected): on a nonempty window, `profitFactor` is the 2-decimal
rounding of (sum of winners' `profitLossPercent`) / (sum of |losers'
`profitLossPercent`|) whenever the loss sum is positive, and the 999
sentinel when the loss sum is zero — in particular when there are no losing
signals.  On an empty window the early return yields 0, not 999.  The
one-win (+5%) one-loss (−2%) scenario gives winRate 50, profitFactor 2.5,
averageWin 5, averageLoss 2. -/
theorem profitFactor_formula :
    (∀ (f : ℚ → ℚ) (t : WinRateTracker) (now N : ℚ),
      windowSignals t now N ≠ [] →
      (0 < (((windowSignals t now N).filter
          (fun s => s.outcome == some "loss")).map (fun s => |plpOf s|)).sum →
        (analyzeWinRate f t now N).profitFactor =
          roundTo 2 ((((windowSignals t now N).filter
              (fun s => s.outcome == some "win")).map plpOf).sum /
            (((windowSignals t now N).filter
              (fun s => s.outcome == some "loss")).map (fun s => |plpOf s|)).sum)) ∧
      ((((windowSignals t now N).filter
          (fun s => s.outcome == some "loss")).map (fun s => |plpOf s|)).sum = 0 →
        (analyzeWinRate f t now N).profitFactor = 999)) ∧
    ((analyzeWinRate (fun _ => 0) c8State 0 30).winRate = 50 ∧
      (analyzeWinRate (fun _ => 0) c8State 0 30).profitFactor = 5 / 2 ∧
      (analyzeWinRate (fun _ => 0) c8State 0 30).averageWin = 5 ∧
      (analyzeWinRate (fun _ => 0) c8State 0 30).averageLoss = 2) := by
  constructor
  · intro f t now N hne
    constructor
    · intro hpos
      unfold analyzeWinRate analyzeOnWindow
      rw [if_neg (by simpa [List.isEmpty_iff] using hne)]
      dsimp only
      rw [if_pos hpos]
    · intro hzero
      unfold analyzeWinRate analyzeOnWindow
      rw [if_neg (by simpa [List.isEmpty_iff] using hne)]
      dsimp only
      rw [hzero, if_neg (lt_irrefl 0)]
      norm_num [roundTo, round_eq]
  · have hw := c8_window_eval
    have hfw : [c8Win, c8Loss].filter (fun s => s.outcome == some "win") = [c8Win] := by
      simp [c8Win, c8Loss]
    have hfl : [c8Win, c8Loss].filter (fun s => s.outcome == some "loss") = [c8Loss] := by
      simp [c8Win, c8Loss]
    refine ⟨?_, ?_, ?_, ?_⟩ <;>
      (unfold analyzeWinRate; rw [hw]; unfold analyzeOnWindow;
        rw [if_neg (by simp)]; dsimp only; simp only [hfw, hfl]) <;>
      norm_num [c8Win, c8Loss, plpOf, roundTo, round_eq, jsRound]

/-- Volume synthesis only reads the first `n` draws of its stream. -/
theorem generateVolumeHistory_congr (m : TokenMetrics) (n : ℕ) (r r' : ℕ → ℚ)
    (h : ∀ i, i < n → r i = r' i) :
    generateVolumeHistory m n r = generateVolumeHistory m n r' := by
  unfold generateVolumeHistory
  apply List.map_congr_left
  intro i hi
  rw [h i (List.mem_range.mp hi)]

/-- C3 counterexample: two calls of `analyzeIndicators` on the same metrics
and the same supplied non-empty price history, differing only in the
`Math.random()` draws, return different records — the internally generated
random volume history shifts `vwap.level` (150 versus 155.55555556). -/
theorem analyzeIndicators_not_deterministic :
    analyzeIndicators (fun _ => 0) c3Metrics [100, 200] (fun _ => 0) ≠
      analyzeIndicators (fun _ => 0) c3Metrics [100, 200]
        (fun i => if i = 3 then 1 / 2 else 0) := by
  intro h
  have hv := congrArg (fun a => a.vwap.level) h
  simp only at hv
  have h1 : (analyzeIndicators (fun _ => 0) c3Metrics [100, 200]
      (fun _ => 0)).vwap.level = 150 := by
    norm_num [analyzeIndicators, analyzeIndicatorsCore, generateVolumeHistory,
      calculateVWAP, c3Metrics, roundTo, round_eq, List.range_succ]
  have h2 : (analyzeIndicators (fun _ => 0) c3Metrics [100, 200]
      (fun i => if i = 3 then 1 / 2 else 0)).vwap.level = 3888888889 / 25000000 := by
    norm_num [analyzeIndicators, analyzeIndicatorsCore, generateVolumeHistory,
      calculateVWAP, c3Metrics, roundTo, round_eq, List.range_succ]
  rw [h1, h2] at hv
  norm_num at hv

/-- C3 (corrected): each indicator calculator is a pure function of its
numeric window (determinism is definitional), but the aggregator
`analyzeIndicators` regenerates its random volume histories on every call
even when a non-empty price history is supplied; it is deterministic only
once the random draws are fixed: two calls agreeing on the first
`2 · length` draws (one volume history for OBV, one for VWAP) return
identical records. -/
theorem analyzeIndicators_rand_determinism :
    ∀ (f : ℚ → ℚ) (m : TokenMetrics) (ph : List ℚ) (r r' : ℕ → ℚ),
      ph ≠ [] → (∀ i, i < 2 * ph.length → r i = r' i) →
      analyzeIndicators f m ph r = analyzeIndicators f m ph r' := by
  intro f m ph r r' hne hr
  have hempty : ph.isEmpty = false := by simpa [List.isEmpty_iff] using hne
  unfold analyzeIndicators
  rw [hempty]
  simp only [Bool.false_eq_true, if_false]
  congr 1
  · apply generateVolumeHistory_congr
    intro i hi
    exact hr _ (by omega)
  · apply generateVolumeHistory_congr
    intro i hi
    exact hr _ (by omega)

/-- Witness for `analyzeIndicators_rand_determinism` at a singleton history
and equal draw streams. -/
theorem analyzeIndicators_rand_determinism_witness :
    analyzeIndicators (fun _ => 0) c3Metrics [1] (fun _ => 0) =
      analyzeIndicators (fun _ => 0) c3Metrics [1] (fun _ => 0) :=
  analyzeIndicators_rand_determinism (fun _ => 0) c3Metrics [1]
    (fun _ => 0) (fun _ => 0) (by simp) (fun _ _ => rfl)

/-- The timestamp comparator of `recordSignal` is total. -/
theorem tsLE_total : ∀ a b : String × SignalRecord,
    (decide (a.2.timestamp ≤ b.2.timestamp)) = true ∨
      (decide (b.2.timestamp ≤ a.2.timestamp)) = true := by
  intro a b
  rcases le_total a.2.timestamp b.2.timestamp with h | h
  · exact Or.inl (by simpa using h)
  · exact Or.inr (by simpa using h)

/-- The timestamp comparator of `recordSignal` is transitive. -/
theorem tsLE_trans : ∀ a b c : String × SignalRecord,
    (decide (a.2.timestamp ≤ b.2.timestamp)) = true →
      (decide (b.2.timestamp ≤ c.2.timestamp)) = true →
      (decide (a.2.timestamp ≤ c.2.timestamp)) = true := by
  intro a b c hab hbc
  simp only [decide_eq_true_eq] at hab hbc ⊢
  exact le_trans hab hbc

/-- `Map.set` with a fresh key appends the entry. -/
theorem mapSet_of_fresh {l : List (String × SignalRecord)} {k : String}
    {v : SignalRecord} (hk : k ∉ l.map Prod.fst) :
    mapSet l k v = l ++ [(k, v)] := by
  have hany : l.any (fun e => e.1 == k) = false := by
    rw [List.any_eq_false]
    intro e he
    simp only [beq_iff_eq]
    intro heq
    exact hk (heq ▸ List.mem_map_of_mem Prod.fst he)
  unfold mapSet
  rw [hany]
  simp

/-- `Map.set` grows the map by at most one entry. -/
theorem mapSet_length_le (l : List (String × SignalRecord)) (k : String)
    (v : SignalRecord) : (mapSet l k v).length ≤ l.length + 1 := by
  unfold mapSet
  split_ifs <;> simp

/-- Deleting a key that occurs only as the appended last entry restores the
original list. -/
theorem mapDelete_append_fresh {l : List (String × SignalRecord)} {k : String}
    {v : SignalRecord} (hk : k ∉ l.map Prod.fst) :
    mapDelete (l ++ [(k, v)]) k = l := by
  unfold mapDelete
  rw [List.eraseP_append_right]
  · simp
  · intro b hb
    simp only [beq_iff_eq]
    intro heq
    exact hk (heq ▸ List.mem_map_of_mem Prod.fst hb)

/-- The head of the timestamp-sorted entry list is the unique strictly
minimal entry when there is one. -/
theorem jsSort_headI_eq_of_strict_min {l : List (String × SignalRecord)}
    {e : String × SignalRecord} (he : e ∈ l)
    (hmin : ∀ x ∈ l, x ≠ e → e.2.timestamp < x.2.timestamp) :
    (jsSort (fun a b => decide (a.2.timestamp ≤ b.2.timestamp)) l).headI = e := by
  have hne : l ≠ [] := by
    intro h0
    rw [h0] at he
    exact absurd he (List.not_mem_nil e)
  have hmem := jsSort_headI_mem
    (fun a b => decide (a.2.timestamp ≤ b.2.timestamp)) l hne
  by_cases hh :
      (jsSort (fun a b => decide (a.2.timestamp ≤ b.2.timestamp)) l).headI = e
  · exact hh
  · exfalso
    have h1 := jsSort_headI_le tsLE_total tsLE_trans l hne e he
    simp only [decide_eq_true_eq] at h1
    have h2 := hmin _ hmem hh
    linarith

/-- `oldestEntry` of a nonempty entry list is one of its entries and has the
minimal timestamp. -/
theorem oldestEntry_spec (l : List (String × SignalRecord)) (hne : l ≠ []) :
    oldestEntry l ∈ l ∧ ∀ x ∈ l, (oldestEntry l).2.timestamp ≤ x.2.timestamp := by
  have main : ∀ (t : List (String × SignalRecord)) (acc : String × SignalRecord),
      (t.foldl (fun acc e => if e.2.timestamp < acc.2.timestamp then e else acc) acc ∈ t ∨
        t.foldl (fun acc e => if e.2.timestamp < acc.2.timestamp then e else acc) acc = acc) ∧
      (t.foldl (fun acc e => if e.2.timestamp < acc.2.timestamp then e else acc) acc).2.timestamp ≤ acc.2.timestamp ∧
      (∀ x ∈ t,
        (t.foldl (fun acc e => if e.2.timestamp < acc.2.timestamp then e else acc) acc).2.timestamp ≤ x.2.timestamp) := by
    intro t
    induction t with
    | nil =>
        intro acc
        exact ⟨Or.inr rfl, le_refl _, fun x hx => absurd hx (List.not_mem_nil x)⟩
    | cons e t ih =>
        intro acc
        simp only [List.foldl_cons]
        obtain ⟨ihmem, ihacc, ihmin⟩ :=
          ih (if e.2.timestamp < acc.2.timestamp then e else acc)
        have hstep_e : (if e.2.timestamp < acc.2.timestamp then e else acc).2.timestamp ≤
            e.2.timestamp := by
          split_ifs with h
          · exact le_refl _
          · linarith [not_lt.mp h]
        have hstep_acc : (if e.2.timestamp < acc.2.timestamp then e else acc).2.timestamp ≤
            acc.2.timestamp := by
          split_ifs with h
          · linarith
          · exact le_refl _
        refine ⟨?_, le_trans ihacc hstep_acc, ?_⟩
        · rcases ihmem with h | h
          · exact Or.inl (List.mem_cons_of_mem e h)
          · rw [h]
            split_ifs with hcase
            · exact Or.inl (List.mem_cons_self _ _)
            · exact Or.inr rfl
        · intro x hx
          rcases List.mem_cons.mp hx with rfl | hxt
          · exact le_trans ihacc hstep_e
          · exact ihmin x hxt
  obtain ⟨x0, t0, rfl⟩ := List.exists_cons_of_ne_nil hne
  obtain ⟨hmem, hacc, hmin⟩ := main (x0 :: t0) (x0 :: t0).headI
  unfold oldestEntry
  constructor
  · rcases hmem with h | h
    · exact h
    · rw [h]
      exact List.mem_cons_self _ _
  · intro x hx
    rcases List.mem_cons.mp hx with rfl | hxt
    · exact hacc
    · exact hmin x (List.mem_cons_of_mem _ hxt)

/-- Under pairwise-distinct timestamps, the head of the timestamp-sorted
entry list is exactly `oldestEntry`. -/
theorem jsSort_headI_eq_oldest {l : List (String × SignalRecord)} (hne : l ≠ [])
    (hdist : l.Pairwise (fun a b => a.2.timestamp ≠ b.2.timestamp)) :
    (jsSort (fun a b => decide (a.2.timestamp ≤ b.2.timestamp)) l).headI =
      oldestEntry l := by
  obtain ⟨ho_mem, ho_min⟩ := oldestEntry_spec l hne
  have hh_mem := jsSort_headI_mem
    (fun a b => decide (a.2.timestamp ≤ b.2.timestamp)) l hne
  by_cases hh :
      (jsSort (fun a b => decide (a.2.timestamp ≤ b.2.timestamp)) l).headI =
        oldestEntry l
  · exact hh
  · exfalso
    have h1 := jsSort_headI_le tsLE_total tsLE_trans l hne _ ho_mem
    simp only [decide_eq_true_eq] at h1
    have h2 := ho_min _ hh_mem
    have heq : ((jsSort (fun a b => decide (a.2.timestamp ≤ b.2.timestamp)) l).headI).2.timestamp =
        (oldestEntry l).2.timestamp := le_antisymm h1 h2
    have hsym : Symmetric (fun a b : String × SignalRecord =>
        a.2.timestamp ≠ b.2.timestamp) := fun a b h => h.symm
    exact (hdist.forall hsym hh_mem ho_mem hh) heq

/-- A full ledger evicts the incoming record itself when that record is
older than every stored one. -/
theorem recordSignal_evicts_new_oldest (t : WinRateTracker) (r : SignalRecord)
    (hfresh : r.id ∉ t.signals.map Prod.fst)
    (hlen : t.signals.length = MAX_SIGNALS)
    (hmin : ∀ x ∈ t.signals, r.timestamp < x.2.timestamp) :
    recordSignal t r = t := by
  unfold recordSignal
  rw [mapSet_of_fresh hfresh]
  have hcap : MAX_SIGNALS < (t.signals ++ [(r.id, r)]).length := by
    simp [hlen]
  rw [if_pos hcap]
  have hmem : (r.id, r) ∈ t.signals ++ [(r.id, r)] :=
    List.mem_append_right _ (List.mem_singleton_self _)
  have hstrict : ∀ x ∈ t.signals ++ [(r.id, r)], x ≠ (r.id, r) →
      (r.id, r).2.timestamp < x.2.timestamp := by
    intro x hx hne
    rcases List.mem_append.mp hx with hx1 | hx2
    · exact hmin x hx1
    · exact absurd (List.mem_singleton.mp hx2) hne
  rw [jsSort_headI_eq_of_strict_min hmem hstrict]
  show ({ signals := mapDelete (t.signals ++ [(r.id, r)]) r.id } : WinRateTracker) = t
  rw [mapDelete_append_fresh hfresh]

/-- C6 counterexample: with the ledger at its 10,000-record capacity and a
fresh record older than every stored one, `recordSignal` evicts the new
record itself: the surviving set is exactly the original one and still
contains the oldest pre-existing record (timestamp 1), which the claim says
must be the one excluded. -/
theorem ledger_eviction_counterexample :
    c6State.signals.length = MAX_SIGNALS ∧
    c6New.id ∉ c6State.signals.map Prod.fst ∧
    (recordSignal c6State c6New).signals = c6State.signals ∧
    (c6Id 0, c6Record 0) ∈ (recordSignal c6State c6New).signals := by
  have hlen : c6State.signals.length = MAX_SIGNALS := by
    simp [c6State]
  have hfresh : c6New.id ∉ c6State.signals.map Prod.fst := by
    intro hmem
    simp only [c6State] at hmem
    obtain ⟨e, he, heqid⟩ := List.mem_map.mp hmem
    obtain ⟨i, hi, rfl⟩ := List.mem_map.mp he
    have h2 : c6Id i = "x" := heqid
    have hdata : List.replicate i 'a' = ['x'] := congrArg String.data h2
    cases i with
    | zero => exact List.noConfusion hdata
    | succ k =>
        rw [List.replicate_succ] at hdata
        injection hdata with h1 h2
        exact absurd h1 (by decide)
  have hmin : ∀ x ∈ c6State.signals, c6New.timestamp < x.2.timestamp := by
    intro x hx
    simp only [c6State] at hx
    obtain ⟨i, hi, rfl⟩ := List.mem_map.mp hx
    show (0:ℚ) < (i : ℚ) + 1
    have hnn : (0:ℚ) ≤ (i : ℚ) := by exact_mod_cast Nat.zero_le i
    linarith
  have heq : recordSignal c6State c6New = c6State :=
    recordSignal_evicts_new_oldest c6State c6New hfresh hlen hmin
  have heq' : (recordSignal c6State c6New).signals = c6State.signals := by
    rw [heq]
  refine ⟨hlen, hfresh, heq', ?_⟩
  rw [heq']
  simp only [c6State]
  exact List.mem_map.mpr ⟨0, List.mem_range.mpr (by norm_num [MAX_SIGNALS]), rfl⟩

/-- C6 (corrected): the ledger never exceeds its 10,000-entry capacity, and
an insert with a fresh id into a full ledger (with pairwise-distinct
timestamps) leaves exactly capacity entries, the surviving set excluding
precisely the entry with the globally smallest timestamp among the
capacity + 1 entries including the newly inserted one — not necessarily a
record that existed before the insert. -/
theorem recordSignal_eviction :
    (∀ (t : WinRateTracker) (r : SignalRecord),
      t.signals.length ≤ MAX_SIGNALS →
      (recordSignal t r).signals.length ≤ MAX_SIGNALS) ∧
    (∀ (t : WinRateTracker) (r : SignalRecord),
      r.id ∉ t.signals.map Prod.fst → t.signals.length = MAX_SIGNALS →
      (t.signals ++ [(r.id, r)]).Pairwise
        (fun a b => a.2.timestamp ≠ b.2.timestamp) →
      (recordSignal t r).signals =
        mapDelete (t.signals ++ [(r.id, r)])
          (oldestEntry (t.signals ++ [(r.id, r)])).1 ∧
      (recordSignal t r).signals.length = MAX_SIGNALS) := by
  constructor
  · intro t r h
    unfold recordSignal
    by_cases hcap : MAX_SIGNALS < (mapSet t.signals r.id r).length
    · rw [if_pos hcap]
      show (mapDelete (mapSet t.signals r.id r) _).length ≤ MAX_SIGNALS
      have hlne : mapSet t.signals r.id r ≠ [] := by
        intro h0
        rw [h0] at hcap
        norm_num [MAX_SIGNALS] at hcap
      have hmem := jsSort_headI_mem
        (fun a b => decide (a.2.timestamp ≤ b.2.timestamp)) _ hlne
      have hdel : (mapDelete (mapSet t.signals r.id r)
          ((jsSort (fun a b => decide (a.2.timestamp ≤ b.2.timestamp))
            (mapSet t.signals r.id r)).headI.1)).length =
          (mapSet t.signals r.id r).length - 1 := by
        unfold mapDelete
        exact List.length_eraseP_of_mem hmem (by simp)
      rw [hdel]
      have := mapSet_length_le t.signals r.id r
      omega
    · rw [if_neg hcap]
      show (mapSet t.signals r.id r).length ≤ MAX_SIGNALS
      omega
  · intro t r hfresh hlen hdist
    have happ : mapSet t.signals r.id r = t.signals ++ [(r.id, r)] :=
      mapSet_of_fresh hfresh
    have hcap : MAX_SIGNALS < (mapSet t.signals r.id r).length := by
      rw [happ]
      simp [hlen]
    have hne : t.signals ++ [(r.id, r)] ≠ [] := by simp
    have hhead := jsSort_headI_eq_oldest hne hdist
    have hmain : (recordSignal t r).signals =
        mapDelete (t.signals ++ [(r.id, r)])
          (oldestEntry (t.signals ++ [(r.id, r)])).1 := by
      unfold recordSignal
      rw [if_pos hcap]
      show mapDelete (mapSet t.signals r.id r) _ = _
      rw [happ, hhead]
    refine ⟨hmain, ?_⟩
    rw [hmain]
    have homem := (oldestEntry_spec (t.signals ++ [(r.id, r)]) hne).1
    have hdel : (mapDelete (t.signals ++ [(r.id, r)])
        (oldestEntry (t.signals ++ [(r.id, r)])).1).length =
        (t.signals ++ [(r.id, r)]).length - 1 := by
      unfold mapDelete
      exact List.length_eraseP_of_mem homem (by simp)
    rw [hdel]
    simp [hlen]
